import Mathlib

/-!
# USBTask.h (lpcusblib, LPC4337 M4): global state store and the non-blocking wait step

Shallow embedding of `Drivers/USB/Core/USBTask.h`.

* The header declares the globals `USB_IsInitialized`, `USB_ControlRequest`,
  `USB_HostState[MAX_USB_CORE]` and `USB_DeviceState[]`, and defines the statement macro
  `HOST_TASK_NONBLOCK_WAIT`, which additionally assigns the two plain (un-indexed)
  variables `WaitMSRemaining` and `PostWaitState`.
* Under `DEVICE_STATE_AS_GPIOR` the header replaces the declaration of the device state array
  by the `#define` directives of lines 141-144.
* `USB_USBTask`, `USB_HostTask` and `USB_DeviceTask` are only declared in the header; their
  bodies are modelled from the specification further below.
-/

namespace USBTask

/-! ## Declarations the header uses but does not contain -/

/-- Constants and integer widths that `USBTask.h` refers to but which are declared in other
headers or in the including translation unit. They are parameters of the development. -/
structure Decls where
  /-- Number of USB cores: the length of `USB_HostState`. -/
  MAX_USB_CORE : Nat
  /-- Enumerator of `USB_Host_States_t` written by `HOST_TASK_NONBLOCK_WAIT`. -/
  HOST_STATE_WaitForDevice : Nat
  /-- Enumerator of `USB_Host_States_t` for the initial host state ("NoDevice"). -/
  HOST_STATE_NoDevice : Nat
  /-- Bit width of the unsigned variable `WaitMSRemaining`. -/
  waitBits : Nat
  /-- Bit width of the unsigned variable `PostWaitState`. -/
  postBits : Nat
deriving Repr, DecidableEq

/-- Modelled from the spec: `USB_Request_Header_t` is declared in `StdRequestType.h`; the
specification describes it as an 8-byte structure with a bit-mapped request type, a request
code, two 16-bit parameters and a data length. -/
structure USB_Request_Header_t where
  bmRequestType : Nat
  bRequest : Nat
  wValue : Nat
  wIndex : Nat
  wLength : Nat
deriving Repr, DecidableEq

/-! ## The global state store (ordinary-memory configuration) -/

/-- Conversion of a value to `uint8_t`. -/
def toU8 (v : Nat) : Nat := v % 2 ^ 8

/-- Conversion of a value to an unsigned integer type of `w` bits. -/
def toUnsigned (w v : Nat) : Nat := v % 2 ^ w

/-- The globals of `USBTask.h` when neither `HOST_STATE_AS_GPIOR` nor `DEVICE_STATE_AS_GPIOR`
is defined, together with the two variables `HOST_TASK_NONBLOCK_WAIT` assigns. -/
structure Store where
  /-- Global `extern volatile bool USB_IsInitialized;` (line 74). -/
  USB_IsInitialized : Bool
  /-- Global `extern USB_Request_Header_t USB_ControlRequest;` (line 84). -/
  USB_ControlRequest : USB_Request_Header_t
  /-- Global `extern volatile uint8_t USB_HostState[MAX_USB_CORE];` (line 106). -/
  USB_HostState : List Nat
  /-- Global `extern volatile uint8_t USB_DeviceState[];` (line 139). -/
  USB_DeviceState : List Nat
  /-- The variable `WaitMSRemaining` named by `HOST_TASK_NONBLOCK_WAIT`: one variable, not
  indexed by the core id. -/
  WaitMSRemaining : Nat
  /-- The variable `PostWaitState` named by `HOST_TASK_NONBLOCK_WAIT`: one variable, not
  indexed by the core id. -/
  PostWaitState : Nat
deriving Repr, DecidableEq

/-- The array `USB_HostState` has the declared number of slots. -/
def Store.WellFormed (d : Decls) (s : Store) : Prop :=
  s.USB_HostState.length = d.MAX_USB_CORE

instance (d : Decls) (s : Store) : Decidable (s.WellFormed d) := by
  unfold Store.WellFormed; infer_instance

/-- Indexed store `arr[i] = v` into a `uint8_t` array: `none` when `i` is out of range. -/
def writeU8 (arr : List Nat) (i v : Nat) : Option (List Nat) :=
  if i < arr.length then some (arr.set i (toU8 v)) else none

/-- The macro of lines 187-189:
`USB_HostState[(CoreID)] = HOST_STATE_WaitForDevice; WaitMSRemaining = (Duration);`
`PostWaitState = (NextState);`. The result is `none` when the array write is out of range. -/
def HOST_TASK_NONBLOCK_WAIT (d : Decls) (s : Store) (CoreID Duration NextState : Nat) :
    Option Store :=
  match writeU8 s.USB_HostState CoreID d.HOST_STATE_WaitForDevice with
  | none => none
  | some hs =>
    some { s with
      USB_HostState := hs
      WaitMSRemaining := toUnsigned d.waitBits Duration
      PostWaitState := toUnsigned d.postBits NextState }

/-! ## The device state in the two build configurations (lines 114-146) -/

/-- Read of `USB_DeviceState[i]` when `DEVICE_STATE_AS_GPIOR` is not defined: the array of
line 139. -/
def readDeviceState (arr : List Nat) (i : Nat) : Option Nat := arr[i]?

/-- Write `USB_DeviceState[i] = v` when `DEVICE_STATE_AS_GPIOR` is not defined. -/
def writeDeviceState (arr : List Nat) (i v : Nat) : Option (List Nat) := writeU8 arr i v

/-- Preprocessing tokens that occur in lines 141-144 and in statements that use the device
state: the identifier `USB_DeviceState`, the identifiers `GPIOR0`, `GPIOR1`, ... obtained by
the paste `GPIOR ## y`, integer constants, and punctuators. -/
inductive Tok where
  | USB_DeviceState
  | GPIOR (y : Nat)
  | num (n : Nat)
  | lbracket
  | rbracket
  | assign
  | semicolon
deriving Repr, DecidableEq

/-- Line 141, `#define _GET_DEVICE_GPIOR_NAME2(y) GPIOR ## y`: the single identifier obtained
by pasting. -/
def _GET_DEVICE_GPIOR_NAME2 (y : Nat) : List Tok := [Tok.GPIOR y]

/-- Line 142, `#define _GET_DEVICE_GPIOR_NAME(x)  _GET_DEVICE_GPIOR_NAME2(x)`. -/
def _GET_DEVICE_GPIOR_NAME (x : Nat) : List Tok := _GET_DEVICE_GPIOR_NAME2 x

/-- Lines 143 and 144, in order, with `DEVICE_STATE_AS_GPIOR` defined as `g`. A macro name is
one identifier, so each line defines the object-like macro `USB_DeviceState`; what follows the
name, the bracketed index included, is its replacement list. The list holds the two
replacement lists. -/
def deviceStateDefines (g : Nat) : List (List Tok) :=
  [ [Tok.lbracket, Tok.num 0, Tok.rbracket] ++ _GET_DEVICE_GPIOR_NAME g,
    [Tok.lbracket, Tok.num 1, Tok.rbracket] ++ _GET_DEVICE_GPIOR_NAME g ]

/-- Replacement of every occurrence of the identifier `USB_DeviceState` by a replacement
list. -/
def expandDeviceState (body : List Tok) : List Tok → List Tok
  | [] => []
  | Tok.USB_DeviceState :: ts => body ++ expandDeviceState body ts
  | t :: ts => t :: expandDeviceState body ts

/-- Macro expansion of a line of the including translation unit when `DEVICE_STATE_AS_GPIOR`
is defined as `g`: the definition in effect is the last one made. -/
def preprocessGPIOR (g : Nat) (line : List Tok) : List Tok :=
  match (deviceStateDefines g).getLast? with
  | some body => expandDeviceState body line
  | none => line

/-- Whether a token can begin a C expression: among the tokens here, an identifier or a
constant can, a punctuator cannot. -/
def Tok.startsExpression : Tok → Bool
  | Tok.USB_DeviceState => true
  | Tok.GPIOR _ => true
  | Tok.num _ => true
  | _ => false

/-- The statement `USB_DeviceState[i] = v;` as a token sequence. -/
def deviceStateAssignment (i v : Nat) : List Tok :=
  [Tok.USB_DeviceState, Tok.lbracket, Tok.num i, Tok.rbracket, Tok.assign, Tok.num v,
    Tok.semicolon]

/-! ## The task dispatcher and the host wait step (bodies not in the header) -/

/-- Modelled from the spec: the operating mode passed to the dispatch entry point,
`enum{Device,Host,UID}` (section 6); its enumerators are declared in `USBMode.h`. -/
inductive Mode where
  | Device
  | Host
  | UID
deriving Repr, DecidableEq

/-- The two state machines the dispatcher can run. -/
inductive Role where
  | Device
  | Host
deriving Repr, DecidableEq

/-- One execution of a state machine: which one, and for which core. -/
structure Run where
  role : Role
  core : Nat
deriving Repr, DecidableEq

/-- Modelled from the spec: what the external collaborators report during one dispatch call:
the millisecond counter of the Clock/Timer Source, whether the Link Controller HAL signals a
Disconnect event, and the live link detection that resolves the UID mode. -/
structure Inputs where
  nowMs : Nat
  disconnect : Bool
  uidIsHost : Bool
deriving Repr, DecidableEq

/-- Modelled from the spec: the transitions the specification leaves to the HAL and to the
enumeration and device protocols (sections 4.2, 4.3 and the open question of section 9).
They are parameters: one step of the host enumeration sequence outside the waiting marker
state, and one step of the device state machine. -/
structure Collaborators where
  hostEnumStep : Nat → Inputs → Store → Store
  deviceStep : Nat → Inputs → Store → Store

/-- The store together with the clock reading of the previous elapsed-time query and a record
of the state machine executions made so far. -/
structure Sys where
  store : Store
  lastMs : Nat
  log : List Run
deriving Repr, DecidableEq

/-- Modelled from the spec: the body of `USB_HostTask` (only its prototype, line 178, is in
the header). Sections 4.3, 5 and 8: a Disconnect event forces the core back to NoDevice and
clears the wait timer (remaining duration zero, resume value the initial state); in the waiting
marker state the step decrements the remaining duration by the elapsed time and, once it
reaches zero, moves the core into the recorded resume state; every other state takes one step
of the enumeration sequence. The clock reading kept for the next elapsed-time query is that of
the last step that wrote the wait timer: a step that cleared it, decremented it, or brought
the core into the waiting marker state (so recorded a wait); any other step leaves it. -/
def USB_HostTask (d : Decls) (x : Collaborators) (s : Sys) (corenum : Nat) (i : Inputs) : Sys :=
  let st := s.store
  let st1 : Store :=
    if i.disconnect then
      { st with
        USB_HostState := st.USB_HostState.set corenum (toU8 d.HOST_STATE_NoDevice)
        WaitMSRemaining := 0
        PostWaitState := toUnsigned d.postBits d.HOST_STATE_NoDevice }
    else if st.USB_HostState[corenum]? = some d.HOST_STATE_WaitForDevice then
      let remaining := st.WaitMSRemaining - (i.nowMs - s.lastMs)
      if remaining = 0 then
        { st with
          USB_HostState := st.USB_HostState.set corenum (toU8 st.PostWaitState)
          WaitMSRemaining := 0 }
      else
        { st with WaitMSRemaining := remaining }
    else
      x.hostEnumStep corenum i st
  let lastMs1 : Nat :=
    if i.disconnect then i.nowMs
    else if st.USB_HostState[corenum]? = some d.HOST_STATE_WaitForDevice then i.nowMs
    else if st1.USB_HostState[corenum]? = some d.HOST_STATE_WaitForDevice then i.nowMs
    else s.lastMs
  { store := st1, lastMs := lastMs1, log := s.log ++ [{ role := Role.Host, core := corenum }] }

/-- Modelled from the spec: the body of `USB_DeviceTask` (only its prototype, line 182, is in
the header): one step of the device state machine of the given core. -/
def USB_DeviceTask (x : Collaborators) (s : Sys) (corenum : Nat) (i : Inputs) : Sys :=
  { store := x.deviceStep corenum i s.store, lastMs := s.lastMs,
    log := s.log ++ [{ role := Role.Device, core := corenum }] }

/-- Modelled from the spec: the body of `USB_USBTask` (only its prototype, line 171, is in the
header). Section 4.1: the dispatcher checks the initialization flag, is a no-op when the system
is uninitialized or the core id is invalid, and otherwise routes to the Device or the Host
state machine of that core, the UID mode being resolved by live link detection. -/
def USB_USBTask (d : Decls) (x : Collaborators) (s : Sys) (corenum : Nat) (mode : Mode)
    (i : Inputs) : Sys :=
  if s.store.USB_IsInitialized = false ∨ d.MAX_USB_CORE ≤ corenum then s
  else
    match mode with
    | Mode.Device => USB_DeviceTask x s corenum i
    | Mode.Host => USB_HostTask d x s corenum i
    | Mode.UID =>
      if i.uidIsHost then USB_HostTask d x s corenum i else USB_DeviceTask x s corenum i

/-- A dispatch call as the caller issues it: core id, mode, and what the collaborators report
during the call. -/
structure Call where
  corenum : Nat
  mode : Mode
  inputs : Inputs
deriving Repr, DecidableEq

/-- A sequence of dispatch calls, executed in order. -/
def runCalls (d : Decls) (x : Collaborators) : Sys → List Call → Sys
  | s, [] => s
  | s, k :: ks => runCalls d x (USB_USBTask d x s k.corenum k.mode k.inputs) ks

/-- The wait timer holds no pending wait: the remaining duration is zero and the resume value
is the initial host state. -/
def Store.WaitCleared (d : Decls) (s : Store) : Prop :=
  s.WaitMSRemaining = 0 ∧ s.PostWaitState = toUnsigned d.postBits d.HOST_STATE_NoDevice

instance (d : Decls) (s : Store) : Decidable (s.WaitCleared d) := by
  unfold Store.WaitCleared; infer_instance

/-- The mode and the live link detection make the dispatcher run the host state machine. -/
def routesToHost (mode : Mode) (i : Inputs) : Prop :=
  mode = Mode.Host ∨ (mode = Mode.UID ∧ i.uidIsHost = true)

instance (mode : Mode) (i : Inputs) : Decidable (routesToHost mode i) := by
  unfold routesToHost; infer_instance

/-- A dispatch call for core `c` that runs the host state machine and observes no Disconnect
event. -/
def OwnHostCall (c : Nat) (k : Call) : Prop :=
  k.corenum = c ∧ routesToHost k.mode k.inputs ∧ k.inputs.disconnect = false

instance (c : Nat) (k : Call) : Decidable (OwnHostCall c k) := by
  unfold OwnHostCall; infer_instance

/-- The invariant of a pending wait of core `c` that ends at clock reading `E` and resumes in
state `N`: the system is initialized, the core is in the waiting marker state, and the
remaining duration is the distance from the last clock reading to `E`. -/
def WaitingUntil (d : Decls) (c E N : Nat) (s : Sys) : Prop :=
  s.store.USB_IsInitialized = true ∧
  s.store.USB_HostState[c]? = some d.HOST_STATE_WaitForDevice ∧
  s.store.PostWaitState = N ∧
  s.lastMs + s.store.WaitMSRemaining = E

instance (d : Decls) (c E N : Nat) (s : Sys) : Decidable (WaitingUntil d c E N s) := by
  unfold WaitingUntil; infer_instance

/-- A host step that records the wait `(D, N)` for core `c`: the macro applied to the store
of the system, the clock reading of the step being `s.lastMs`. -/
def recordWait (d : Decls) (s : Sys) (c D N : Nat) : Option Sys :=
  (HOST_TASK_NONBLOCK_WAIT d s.store c D N).map fun st => { s with store := st }

/-! ## Concrete data used by the instance checks -/

/-- A two-core instance of the missing declarations (the LPC43xx has two USB controllers). -/
def decls2 : Decls :=
  { MAX_USB_CORE := 2, HOST_STATE_WaitForDevice := 0, HOST_STATE_NoDevice := 1,
    waitBits := 16, postBits := 8 }

/-- An all-zero control request. -/
def req0 : USB_Request_Header_t :=
  { bmRequestType := 0, bRequest := 0, wValue := 0, wIndex := 0, wLength := 0 }

/-- A two-core store in which core 1 has a wait of 50 ms pending that resumes in state 7. -/
def store2 : Store :=
  { USB_IsInitialized := true, USB_ControlRequest := req0,
    USB_HostState := [3, 0], USB_DeviceState := [4, 5],
    WaitMSRemaining := 50, PostWaitState := 7 }

/-- Collaborators whose steps leave the store as it is. -/
def idle : Collaborators :=
  { hostEnumStep := fun _ _ st => st, deviceStep := fun _ _ st => st }

/-- The two-core store at clock reading 100 with an empty execution record. -/
def sys2 : Sys := { store := store2, lastMs := 100, log := [] }

/-- The two-core store before `USB_Init` has run. -/
def sysOff : Sys :=
  { store := { store2 with USB_IsInitialized := false }, lastMs := 100, log := [] }

/-- Collaborators whose host enumeration step needs a delay: it records the wait (200, 4) for
the core it is run for, with the macro of the header. -/
def enumerating : Collaborators :=
  { hostEnumStep := fun c _ st => (HOST_TASK_NONBLOCK_WAIT decls2 st c 200 4).getD st,
    deviceStep := fun _ _ st => st }

/-- A two-core system at clock reading 100 in which no core waits: core 0 is in state 3,
core 1 in state 5. -/
def sys3 : Sys :=
  { store := { store2 with USB_HostState := [3, 5], WaitMSRemaining := 0, PostWaitState := 0 },
    lastMs := 100, log := [] }

/-- A host-mode dispatch call for a core at a clock reading, with no Disconnect event. -/
def hostCall (corenum t : Nat) : Call :=
  { corenum := corenum, mode := Mode.Host,
    inputs := { nowMs := t, disconnect := false, uidIsHost := false } }

/-! ## Basic facts about the indexed write -/

theorem writeU8_eq_some {arr : List Nat} {i : Nat} (v : Nat) (h : i < arr.length) :
    writeU8 arr i v = some (arr.set i (toU8 v)) := by
  simp [writeU8, h]

theorem toU8_of_lt {v : Nat} (h : v < 256) : toU8 v = v := by
  unfold toU8; exact Nat.mod_eq_of_lt (by simpa using h)

theorem toUnsigned_of_lt {w v : Nat} (h : v < 2 ^ w) : toUnsigned w v = v :=
  Nat.mod_eq_of_lt h

/-- Closed form of the macro on a well-formed store and a valid core id. -/
theorem wait_eq_some (d : Decls) (s : Store) (c D N : Nat)
    (hwf : s.WellFormed d) (hc : c < d.MAX_USB_CORE) :
    HOST_TASK_NONBLOCK_WAIT d s c D N =
      some { s with
        USB_HostState := s.USB_HostState.set c (toU8 d.HOST_STATE_WaitForDevice)
        WaitMSRemaining := toUnsigned d.waitBits D
        PostWaitState := toUnsigned d.postBits N } := by
  have h : c < s.USB_HostState.length := by rw [hwf]; exact hc
  simp [HOST_TASK_NONBLOCK_WAIT, writeU8_eq_some _ h]

/-! ## Claims about `HOST_TASK_NONBLOCK_WAIT` -/

/-- C1: for a valid core id `c`, a duration `D` and a resume state `N` (values of the types of
`WaitMSRemaining` and `PostWaitState`), and any prior store, the macro succeeds and leaves
`USB_HostState[c] = HOST_STATE_WaitForDevice`, `WaitMSRemaining = D`, `PostWaitState = N`. -/
theorem wait_postcondition (d : Decls) (s : Store) (c D N : Nat)
    (hwf : s.WellFormed d) (hc : c < d.MAX_USB_CORE)
    (hW : d.HOST_STATE_WaitForDevice < 256)
    (hD : D < 2 ^ d.waitBits) (hN : N < 2 ^ d.postBits) :
    ∃ s1, HOST_TASK_NONBLOCK_WAIT d s c D N = some s1 ∧
      s1.USB_HostState[c]? = some d.HOST_STATE_WaitForDevice ∧
      s1.WaitMSRemaining = D ∧ s1.PostWaitState = N := by
  have h : c < s.USB_HostState.length := by rw [hwf]; exact hc
  refine ⟨_, wait_eq_some d s c D N hwf hc, ?_, ?_, ?_⟩
  · simp [h, toU8_of_lt hW]
  · exact toUnsigned_of_lt hD
  · exact toUnsigned_of_lt hN

/-- Instance of C1: core 0 of the two-core store, duration 10, resume state 9. -/
theorem wait_postcondition_witness :
    ∃ s1, HOST_TASK_NONBLOCK_WAIT decls2 store2 0 10 9 = some s1 ∧
      s1.USB_HostState[0]? = some decls2.HOST_STATE_WaitForDevice ∧
      s1.WaitMSRemaining = 10 ∧ s1.PostWaitState = 9 :=
  wait_postcondition decls2 store2 0 10 9 (by decide) (by decide) (by decide)
    (by decide) (by decide)

/-- C3: the macro does not keep a wait timer per core. In the two-core store core 1 has the
wait (50, 7) pending; recording the wait (10, 9) for core 0 leaves core 1 in the waiting
marker state but replaces the only remaining-duration counter and resume state by 10 and 9. -/
theorem wait_timer_shared_between_cores :
    store2.USB_HostState[1]? = some decls2.HOST_STATE_WaitForDevice ∧
    store2.WaitMSRemaining = 50 ∧ store2.PostWaitState = 7 ∧
    ∃ s1, HOST_TASK_NONBLOCK_WAIT decls2 store2 0 10 9 = some s1 ∧
      s1.USB_HostState[1]? = some decls2.HOST_STATE_WaitForDevice ∧
      s1.WaitMSRemaining = 10 ∧ s1.PostWaitState = 9 := by
  refine ⟨by decide, by decide, by decide, _, rfl, ?_, ?_, ?_⟩ <;> decide

/-- C8: for a valid core id `c` the macro succeeds, leaves `USB_HostState[j]` unchanged for
every `j` different from `c`, and leaves `USB_DeviceState`, `USB_IsInitialized` and
`USB_ControlRequest` unchanged. -/
theorem wait_frame (d : Decls) (s : Store) (c D N : Nat)
    (hwf : s.WellFormed d) (hc : c < d.MAX_USB_CORE) :
    ∃ s1, HOST_TASK_NONBLOCK_WAIT d s c D N = some s1 ∧
      (∀ j, j ≠ c → s1.USB_HostState[j]? = s.USB_HostState[j]?) ∧
      s1.USB_DeviceState = s.USB_DeviceState ∧
      s1.USB_IsInitialized = s.USB_IsInitialized ∧
      s1.USB_ControlRequest = s.USB_ControlRequest := by
  refine ⟨_, wait_eq_some d s c D N hwf hc, ?_, rfl, rfl, rfl⟩
  intro j hj
  simp [List.getElem?_set_ne (Ne.symm hj)]

/-- Instance of C8: core 1 of the two-core store. -/
theorem wait_frame_witness :
    ∃ s1, HOST_TASK_NONBLOCK_WAIT decls2 store2 1 10 9 = some s1 ∧
      (∀ j, j ≠ 1 → s1.USB_HostState[j]? = store2.USB_HostState[j]?) ∧
      s1.USB_DeviceState = store2.USB_DeviceState ∧
      s1.USB_IsInitialized = store2.USB_IsInitialized ∧
      s1.USB_ControlRequest = store2.USB_ControlRequest :=
  wait_frame decls2 store2 1 10 9 (by decide) (by decide)

/-- C9: for a valid core id `c`, recording the wait `(D1, N1)` and then the wait `(D2, N2)`
yields the same store as recording `(D2, N2)` alone; in particular recording the same wait
twice equals recording it once. -/
theorem wait_overwrites (d : Decls) (s : Store) (c D1 N1 D2 N2 : Nat)
    (hwf : s.WellFormed d) (hc : c < d.MAX_USB_CORE) :
    ∃ s2, HOST_TASK_NONBLOCK_WAIT d s c D2 N2 = some s2 ∧
      ((HOST_TASK_NONBLOCK_WAIT d s c D1 N1).bind
        fun s1 => HOST_TASK_NONBLOCK_WAIT d s1 c D2 N2) = some s2 ∧
      ((HOST_TASK_NONBLOCK_WAIT d s c D2 N2).bind
        fun s1 => HOST_TASK_NONBLOCK_WAIT d s1 c D2 N2) = some s2 := by
  have hset : ∀ D N : Nat,
      (({ s with
          USB_HostState := s.USB_HostState.set c (toU8 d.HOST_STATE_WaitForDevice)
          WaitMSRemaining := toUnsigned d.waitBits D
          PostWaitState := toUnsigned d.postBits N } : Store)).WellFormed d := by
    intro D N
    simpa [Store.WellFormed] using hwf
  refine ⟨_, wait_eq_some d s c D2 N2 hwf hc, ?_, ?_⟩
  · rw [wait_eq_some d s c D1 N1 hwf hc, Option.some_bind,
      wait_eq_some d _ c D2 N2 (hset D1 N1) hc]
    simp
  · rw [wait_eq_some d s c D2 N2 hwf hc, Option.some_bind,
      wait_eq_some d _ c D2 N2 (hset D2 N2) hc]
    simp

/-- Instance of C9: on core 0, the wait (10, 9) followed by the wait (20, 4). -/
theorem wait_overwrites_witness :
    ∃ s2, HOST_TASK_NONBLOCK_WAIT decls2 store2 0 20 4 = some s2 ∧
      ((HOST_TASK_NONBLOCK_WAIT decls2 store2 0 10 9).bind
        fun s1 => HOST_TASK_NONBLOCK_WAIT decls2 s1 0 20 4) = some s2 ∧
      ((HOST_TASK_NONBLOCK_WAIT decls2 store2 0 20 4).bind
        fun s1 => HOST_TASK_NONBLOCK_WAIT decls2 s1 0 20 4) = some s2 :=
  wait_overwrites decls2 store2 0 10 9 20 4 (by decide) (by decide)

/-- C10: when `USB_HostState` has `MAX_USB_CORE` slots and `c < MAX_USB_CORE`, the indexed
write of the macro is in range (it is not the out-of-range result), the macro returns a store,
and in that store `USB_HostState` still has `MAX_USB_CORE` slots. -/
theorem wait_in_bounds (d : Decls) (s : Store) (c D N : Nat)
    (hwf : s.WellFormed d) (hc : c < d.MAX_USB_CORE) :
    writeU8 s.USB_HostState c d.HOST_STATE_WaitForDevice ≠ none ∧
    ∃ s1, HOST_TASK_NONBLOCK_WAIT d s c D N = some s1 ∧
      s1.USB_HostState.length = d.MAX_USB_CORE := by
  have h : c < s.USB_HostState.length := by rw [hwf]; exact hc
  refine ⟨by simp [writeU8_eq_some _ h], _, wait_eq_some d s c D N hwf hc, ?_⟩
  simpa [Store.WellFormed] using hwf

/-- Instance of C10: core 1 of the two-core store. -/
theorem wait_in_bounds_witness :
    writeU8 store2.USB_HostState 1 decls2.HOST_STATE_WaitForDevice ≠ none ∧
    ∃ s1, HOST_TASK_NONBLOCK_WAIT decls2 store2 1 10 9 = some s1 ∧
      s1.USB_HostState.length = decls2.MAX_USB_CORE :=
  wait_in_bounds decls2 store2 1 10 9 (by decide) (by decide)

/-! ## The dispatcher and the host wait step -/

theorem runCalls_append (d : Decls) (x : Collaborators) (s : Sys) (ks ls : List Call) :
    runCalls d x s (ks ++ ls) = runCalls d x (runCalls d x s ks) ls := by
  induction ks generalizing s with
  | nil => rfl
  | cons k ks ih => simp [runCalls, ih]

/-- With the system initialized and a valid core id the dispatcher only routes. -/
theorem dispatch_routes (d : Decls) (x : Collaborators) (s : Sys) (corenum : Nat)
    (mode : Mode) (i : Inputs)
    (hinit : s.store.USB_IsInitialized = true) (hc : corenum < d.MAX_USB_CORE) :
    USB_USBTask d x s corenum mode i =
      match mode with
      | Mode.Device => USB_DeviceTask x s corenum i
      | Mode.Host => USB_HostTask d x s corenum i
      | Mode.UID =>
        if i.uidIsHost then USB_HostTask d x s corenum i else USB_DeviceTask x s corenum i := by
  have hno : ¬ (s.store.USB_IsInitialized = false ∨ d.MAX_USB_CORE ≤ corenum) := by
    rw [hinit]; simp [hc]
  unfold USB_USBTask
  rw [if_neg hno]

/-- One dispatch call that runs the host state machine, without Disconnect, on a core in the
waiting marker state. -/
theorem host_dispatch_waiting (d : Decls) (x : Collaborators) (s : Sys) (c : Nat) (k : Call)
    (hinit : s.store.USB_IsInitialized = true) (hc : c < d.MAX_USB_CORE)
    (hw : s.store.USB_HostState[c]? = some d.HOST_STATE_WaitForDevice)
    (hk : OwnHostCall c k) :
    USB_USBTask d x s k.corenum k.mode k.inputs =
      { store :=
          if s.store.WaitMSRemaining - (k.inputs.nowMs - s.lastMs) = 0 then
            { s.store with
              USB_HostState := s.store.USB_HostState.set c (toU8 s.store.PostWaitState)
              WaitMSRemaining := 0 }
          else
            { s.store with
              WaitMSRemaining := s.store.WaitMSRemaining - (k.inputs.nowMs - s.lastMs) }
        lastMs := k.inputs.nowMs
        log := s.log ++ [{ role := Role.Host, core := c }] } := by
  obtain ⟨hcore, hhost, hdis⟩ := hk
  rw [hcore, dispatch_routes d x s c k.mode k.inputs hinit hc]
  have hrun : (match k.mode with
      | Mode.Device => USB_DeviceTask x s c k.inputs
      | Mode.Host => USB_HostTask d x s c k.inputs
      | Mode.UID =>
        if k.inputs.uidIsHost then USB_HostTask d x s c k.inputs
        else USB_DeviceTask x s c k.inputs) = USB_HostTask d x s c k.inputs := by
    rcases hhost with hm | ⟨hm, hu⟩
    · rw [hm]
    · rw [hm]; simp [hu]
  rw [hrun]
  simp [USB_HostTask, hw, hdis]

/-- A call before the end of the wait keeps the wait pending. -/
theorem waiting_step_before (d : Decls) (x : Collaborators) (s : Sys) (c E N : Nat) (k : Call)
    (hc : c < d.MAX_USB_CORE) (hinv : WaitingUntil d c E N s) (hk : OwnHostCall c k)
    (hle : s.lastMs ≤ k.inputs.nowMs) (hlt : k.inputs.nowMs < E) :
    WaitingUntil d c E N (USB_USBTask d x s k.corenum k.mode k.inputs) ∧
      (USB_USBTask d x s k.corenum k.mode k.inputs).lastMs = k.inputs.nowMs := by
  obtain ⟨hinit, hw, hp, hE⟩ := hinv
  have hne : ¬ s.store.WaitMSRemaining - (k.inputs.nowMs - s.lastMs) = 0 := by omega
  rw [host_dispatch_waiting d x s c k hinit hc hw hk, if_neg hne]
  refine ⟨⟨hinit, hw, hp, ?_⟩, rfl⟩
  show k.inputs.nowMs + (s.store.WaitMSRemaining - (k.inputs.nowMs - s.lastMs)) = E
  omega

/-- A call at or after the end of the wait moves the core into the resume state. -/
theorem waiting_step_after (d : Decls) (x : Collaborators) (s : Sys) (c E N : Nat) (k : Call)
    (hc : c < d.MAX_USB_CORE) (hinv : WaitingUntil d c E N s) (hk : OwnHostCall c k)
    (hle : E ≤ k.inputs.nowMs) :
    (USB_USBTask d x s k.corenum k.mode k.inputs).store.USB_HostState[c]? =
      some (toU8 N) := by
  obtain ⟨hinit, hw, hp, hE⟩ := hinv
  have hz : s.store.WaitMSRemaining - (k.inputs.nowMs - s.lastMs) = 0 := by omega
  have hlen : c < s.store.USB_HostState.length := by
    by_contra h
    simp [List.getElem?_eq_none (Nat.le_of_not_lt h)] at hw
  rw [host_dispatch_waiting d x s c k hinit hc hw hk]
  simp [hz, hlen, hp]

/-- Calls of the core itself at non-decreasing clock readings before the end of the wait keep
it pending. -/
theorem waiting_run_before (d : Decls) (x : Collaborators) (c E N : Nat)
    (hc : c < d.MAX_USB_CORE) (calls : List Call) (s : Sys)
    (hinv : WaitingUntil d c E N s)
    (hown : ∀ k ∈ calls, OwnHostCall c k)
    (hmono : (s.lastMs :: calls.map fun k => k.inputs.nowMs).Pairwise (· ≤ ·))
    (hbefore : ∀ k ∈ calls, k.inputs.nowMs < E) :
    WaitingUntil d c E N (runCalls d x s calls) := by
  induction calls generalizing s with
  | nil => simpa [runCalls] using hinv
  | cons k ks ih =>
    rw [List.map_cons] at hmono
    have hst : s.lastMs ≤ k.inputs.nowMs :=
      (List.pairwise_cons.mp hmono).1 _ (List.mem_cons_self _ _)
    have hkE : k.inputs.nowMs < E := hbefore k (List.mem_cons_self _ _)
    obtain ⟨hinv1, hlast⟩ :=
      waiting_step_before d x s c E N k hc hinv (hown k (List.mem_cons_self _ _)) hst hkE
    have hmono1 := (List.pairwise_cons.mp hmono).2
    have := ih _ hinv1 (fun u hu => hown u (List.mem_cons_of_mem _ hu))
      (by rw [hlast]; exact hmono1) (fun u hu => hbefore u (List.mem_cons_of_mem _ hu))
    simpa [runCalls] using this

/-- The system right after a wait has been recorded satisfies the waiting invariant. -/
theorem recordWait_waiting (d : Decls) (s : Sys) (c D N : Nat)
    (hinit : s.store.USB_IsInitialized = true)
    (hwf : s.store.WellFormed d) (hc : c < d.MAX_USB_CORE)
    (hW : d.HOST_STATE_WaitForDevice < 256)
    (hD : D < 2 ^ d.waitBits) (hN : N < 2 ^ d.postBits) :
    ∃ s0, recordWait d s c D N = some s0 ∧ s0.lastMs = s.lastMs ∧
      WaitingUntil d c (s.lastMs + D) N s0 := by
  have h : c < s.store.USB_HostState.length := by rw [hwf]; exact hc
  refine ⟨{ s with
      store := { s.store with
        USB_HostState := s.store.USB_HostState.set c (toU8 d.HOST_STATE_WaitForDevice)
        WaitMSRemaining := toUnsigned d.waitBits D
        PostWaitState := toUnsigned d.postBits N } }, ?_, rfl, hinit, ?_, ?_, ?_⟩
  · rw [recordWait, wait_eq_some d s.store c D N hwf hc]; rfl
  · simp [h, toU8_of_lt hW]
  · exact toUnsigned_of_lt hN
  · show s.lastMs + toUnsigned d.waitBits D = s.lastMs + D
    rw [toUnsigned_of_lt hD]

/-- When only the core itself is dispatched, the wait is timed as specified: a wait `(D, N)`
recorded for a valid core `c` at clock reading `T` is still pending after any calls of `c`
that run the host state machine at non-decreasing readings before `T + D`, and the first such
call at a reading on or after `T + D` brings the core into state `N`, however many calls came
before. -/
theorem timed_wait_own_calls (d : Decls) (x : Collaborators) (s : Sys) (c D N T : Nat)
    (calls : List Call) (last : Call)
    (hinit : s.store.USB_IsInitialized = true)
    (hwf : s.store.WellFormed d) (hc : c < d.MAX_USB_CORE)
    (hW : d.HOST_STATE_WaitForDevice < 256)
    (hD : D < 2 ^ d.waitBits) (hN : N < 2 ^ d.postBits) (hN8 : N < 256)
    (hT : s.lastMs = T)
    (hown : ∀ k ∈ calls, OwnHostCall c k) (hlast : OwnHostCall c last)
    (hmono : (T :: calls.map fun k => k.inputs.nowMs).Pairwise (· ≤ ·))
    (hbefore : ∀ k ∈ calls, k.inputs.nowMs < T + D)
    (hend : T + D ≤ last.inputs.nowMs) :
    ∃ s0, recordWait d s c D N = some s0 ∧
      (runCalls d x s0 calls).store.USB_HostState[c]? = some d.HOST_STATE_WaitForDevice ∧
      (runCalls d x s0 (calls ++ [last])).store.USB_HostState[c]? = some N ∧
      (runCalls d x s0 [last]).store.USB_HostState[c]? = some N := by
  obtain ⟨s0, hrec, hlastMs, hinv⟩ := recordWait_waiting d s c D N hinit hwf hc hW hD hN
  rw [hT] at hlastMs hinv
  have hrun := waiting_run_before d x c (T + D) N hc calls s0 hinv hown
    (by rw [hlastMs]; exact hmono) hbefore
  refine ⟨s0, hrec, hrun.2.1, ?_, ?_⟩
  · have := waiting_step_after d x _ c (T + D) N last hc hrun hlast hend
    rw [toU8_of_lt hN8] at this
    simpa [runCalls_append, runCalls] using this
  · have := waiting_step_after d x s0 c (T + D) N last hc hinv hlast hend
    rw [toU8_of_lt hN8] at this
    simpa [runCalls] using this

/-! ## Claims about the dispatcher -/

/-- C2: the timed wait of one core is not kept when another core is dispatched in between.
Core 0 records the wait (10, 9) at clock reading 100. If the host step of core 1 at reading 105
leaves the store alone, the call for core 0 at reading 110 brings core 0 into state 9. If the
host step of core 1 at reading 105 itself needs a delay and records the wait (200, 4) with
`HOST_TASK_NONBLOCK_WAIT`, the call for core 0 at reading 110 leaves core 0 in the waiting
marker state with 195 ms remaining, and when that time has passed core 0 resumes in state 4. -/
theorem timed_wait_lost_to_other_core :
    ∃ s0, recordWait decls2 sys3 0 10 9 = some s0 ∧
      (runCalls decls2 idle s0 [hostCall 1 105, hostCall 0 110]).store.USB_HostState[0]? =
        some 9 ∧
      (runCalls decls2 enumerating s0
        [hostCall 1 105, hostCall 0 110]).store.USB_HostState[0]? =
        some decls2.HOST_STATE_WaitForDevice ∧
      (runCalls decls2 enumerating s0
        [hostCall 1 105, hostCall 0 110]).store.WaitMSRemaining = 195 ∧
      (runCalls decls2 enumerating s0
        [hostCall 1 105, hostCall 0 110, hostCall 0 305]).store.USB_HostState[0]? =
        some 4 := by
  refine ⟨_, rfl, ?_, ?_, ?_, ?_⟩ <;> decide

/-- C4: with the system initialized and a valid core `c`, whatever the host state of `c` and
whatever wait is pending, one dispatch call that runs the host state machine and observes a
Disconnect event leaves `USB_HostState[c]` equal to NoDevice and the wait timer cleared. -/
theorem disconnect_resets_host (d : Decls) (x : Collaborators) (s : Sys) (c : Nat)
    (mode : Mode) (i : Inputs)
    (hinit : s.store.USB_IsInitialized = true)
    (hwf : s.store.WellFormed d) (hc : c < d.MAX_USB_CORE)
    (hND : d.HOST_STATE_NoDevice < 256)
    (hhost : routesToHost mode i) (hdis : i.disconnect = true) :
    (USB_USBTask d x s c mode i).store.USB_HostState[c]? = some d.HOST_STATE_NoDevice ∧
      (USB_USBTask d x s c mode i).store.WaitCleared d := by
  have h : c < s.store.USB_HostState.length := by rw [hwf]; exact hc
  have hrun : USB_USBTask d x s c mode i = USB_HostTask d x s c i := by
    rw [dispatch_routes d x s c mode i hinit hc]
    rcases hhost with hm | ⟨hm, hu⟩
    · rw [hm]
    · rw [hm]; simp [hu]
  rw [hrun]
  simp [USB_HostTask, hdis, h, toU8_of_lt hND, Store.WaitCleared]

/-- Instance of C4: core 1 of the two-core store is in the waiting marker state with 50 ms
remaining when the Disconnect event is observed. -/
theorem disconnect_resets_host_witness :
    (USB_USBTask decls2 idle sys2 1 Mode.Host
        { nowMs := 101, disconnect := true, uidIsHost := false }).store.USB_HostState[1]? =
      some decls2.HOST_STATE_NoDevice ∧
    (USB_USBTask decls2 idle sys2 1 Mode.Host
        { nowMs := 101, disconnect := true, uidIsHost := false }).store.WaitCleared decls2 :=
  disconnect_resets_host decls2 idle sys2 1 Mode.Host
    { nowMs := 101, disconnect := true, uidIsHost := false } rfl (by decide) (by decide)
    (by decide) (Or.inl rfl) rfl

/-- C5: while `USB_IsInitialized` is false, `USB_USBTask` returns the system exactly as it was
for every core id (valid or not), every mode and every input, and so does every sequence of
dispatch calls. -/
theorem uninitialized_dispatch_noop (d : Decls) (x : Collaborators) (s : Sys)
    (calls : List Call) (hoff : s.store.USB_IsInitialized = false) :
    (∀ (corenum : Nat) (mode : Mode) (i : Inputs), USB_USBTask d x s corenum mode i = s) ∧
      runCalls d x s calls = s := by
  have hone : ∀ (corenum : Nat) (mode : Mode) (i : Inputs),
      USB_USBTask d x s corenum mode i = s := by
    intro corenum mode i
    simp [USB_USBTask, hoff]
  refine ⟨hone, ?_⟩
  induction calls with
  | nil => rfl
  | cons k ks ih => simp [runCalls, hone, ih]

/-- Instance of C5: three calls (one of them with the invalid core id 7) on the two-core
store before initialization. -/
theorem uninitialized_dispatch_noop_witness :
    (∀ (corenum : Nat) (mode : Mode) (i : Inputs),
        USB_USBTask decls2 idle sysOff corenum mode i = sysOff) ∧
      runCalls decls2 idle sysOff
        [{ corenum := 0, mode := Mode.Host,
           inputs := { nowMs := 101, disconnect := false, uidIsHost := false } },
         { corenum := 7, mode := Mode.Device,
           inputs := { nowMs := 102, disconnect := true, uidIsHost := false } },
         { corenum := 1, mode := Mode.UID,
           inputs := { nowMs := 103, disconnect := false, uidIsHost := true } }] = sysOff :=
  uninitialized_dispatch_noop decls2 idle sysOff _ rfl

/-- C6: with the system initialized and a valid core id, one call of `USB_USBTask` adds
exactly one execution to the record: either `USB_HostTask` or `USB_DeviceTask`, and for the
core id of the call. -/
theorem dispatch_runs_one_task (d : Decls) (x : Collaborators) (s : Sys) (corenum : Nat)
    (mode : Mode) (i : Inputs)
    (hinit : s.store.USB_IsInitialized = true) (hc : corenum < d.MAX_USB_CORE) :
    (USB_USBTask d x s corenum mode i).log = s.log ++ [{ role := Role.Host, core := corenum }] ∨
      (USB_USBTask d x s corenum mode i).log =
        s.log ++ [{ role := Role.Device, core := corenum }] := by
  rw [dispatch_routes d x s corenum mode i hinit hc]
  cases mode with
  | Device => right; rfl
  | Host => left; rfl
  | UID =>
    cases hu : i.uidIsHost with
    | true => left; rfl
    | false => right; rfl

/-- Instance of C6: a UID-mode call for core 1 of the two-core store. -/
theorem dispatch_runs_one_task_witness :
    (USB_USBTask decls2 idle sys2 1 Mode.UID
        { nowMs := 101, disconnect := false, uidIsHost := true }).log =
      sys2.log ++ [{ role := Role.Host, core := 1 }] ∨
    (USB_USBTask decls2 idle sys2 1 Mode.UID
        { nowMs := 101, disconnect := false, uidIsHost := true }).log =
      sys2.log ++ [{ role := Role.Device, core := 1 }] :=
  dispatch_runs_one_task decls2 idle sys2 1 Mode.UID
    { nowMs := 101, disconnect := false, uidIsHost := true } rfl (by decide)

/-! ## The device state: the array against the `GPIOR` defines -/

/-- In the array configuration, reading a core's device state after writing it returns the
value written. -/
theorem ram_read_after_write (arr : List Nat) (i v : Nat) (hi : i < arr.length) :
    ((writeDeviceState arr i v).bind fun a => readDeviceState a i) = some (toU8 v) := by
  simp [writeDeviceState, readDeviceState, writeU8_eq_some v hi, hi]

/-- In the array configuration, writing a core's device state leaves every other core's as it
was. -/
theorem ram_write_frame (arr : List Nat) (i j v : Nat) (hi : i < arr.length) (hij : i ≠ j) :
    ((writeDeviceState arr i v).bind fun a => readDeviceState a j) = readDeviceState arr j := by
  simp [writeDeviceState, readDeviceState, writeU8_eq_some v hi, List.getElem?_set_ne hij]

/-- With `DEVICE_STATE_AS_GPIOR` defined as `g`, every statement `USB_DeviceState[i] = v;`
expands to a token sequence that begins with the bracketed index of line 144. -/
theorem preprocessGPIOR_assignment (g i v : Nat) :
    preprocessGPIOR g (deviceStateAssignment i v) =
      [Tok.lbracket, Tok.num 1, Tok.rbracket, Tok.GPIOR g, Tok.lbracket, Tok.num i,
        Tok.rbracket, Tok.assign, Tok.num v, Tok.semicolon] := rfl

/-- C7: the two configurations are not equivalent. With the array of line 139, writing 3 to
`USB_DeviceState[0]` of the array 4, 5 succeeds, core 0 then reads 3 and core 1 still reads 5.
With `DEVICE_STATE_AS_GPIOR` defined as 1, the statement `USB_DeviceState[0] = 3;` expands to
`[1] GPIOR1[0] = 3;`, which begins with a punctuator and so is not a C statement: the
configuration has no device state cell to write or read. -/
theorem gpior_device_state_not_a_cell :
    ((writeDeviceState [4, 5] 0 3).bind fun a => readDeviceState a 0) = some 3 ∧
    ((writeDeviceState [4, 5] 0 3).bind fun a => readDeviceState a 1) = some 5 ∧
    preprocessGPIOR 1 (deviceStateAssignment 0 3) =
      [Tok.lbracket, Tok.num 1, Tok.rbracket, Tok.GPIOR 1, Tok.lbracket, Tok.num 0,
        Tok.rbracket, Tok.assign, Tok.num 3, Tok.semicolon] ∧
    (preprocessGPIOR 1 (deviceStateAssignment 0 3)).head?.map Tok.startsExpression =
      some false := by
  decide

end USBTask
